import Mathlib

/-!
Verification of the inventory-turnover calculation core of
`retail-insights-visualizer` (src/src/components/InventoryTurnoverCalculator.tsx).

The component's state and computation are shallowly embedded here:
JavaScript numbers are modelled as an inductive type `JSNum` with an exact
rational payload plus the `Infinity`, `-Infinity` and `NaN` values, so that
the unguarded divisions in `calculateResults` keep their JavaScript
semantics.  Stored input fields are rationals (the values the component
keeps in its `values` state), and divisions produce `JSNum`.
-/

/-- JavaScript number values relevant to this program: an exact rational,
positive infinity, negative infinity, or NaN. -/
inductive JSNum where
  | num (q : ℚ)
  | inf
  | negInf
  | nan
deriving DecidableEq, Repr

/-- JavaScript division of two finite numbers: `a / b`, giving `Infinity`,
`-Infinity` or `NaN` when the denominator is zero (as in JS). -/
def jsDiv (a b : ℚ) : JSNum :=
  if b = 0 then
    if a = 0 then JSNum.nan
    else if 0 < a then JSNum.inf
    else JSNum.negInf
  else JSNum.num (a / b)

/-- JavaScript division of a finite number by a possibly non-finite number
(used for `365 / ratio`): a finite value divided by an infinity is `0`, and
division by `NaN` is `NaN`. -/
def jsNumDiv (a : ℚ) : JSNum → JSNum
  | JSNum.num b => jsDiv a b
  | JSNum.inf => JSNum.num 0
  | JSNum.negInf => JSNum.num 0
  | JSNum.nan => JSNum.nan

/-- JavaScript `<` comparison on `JSNum`: any comparison involving `NaN` is
false; infinities compare in the usual order. -/
def jsLt : JSNum → JSNum → Bool
  | JSNum.nan, _ => false
  | _, JSNum.nan => false
  | JSNum.num a, JSNum.num b => decide (a < b)
  | JSNum.num _, JSNum.inf => true
  | JSNum.num _, JSNum.negInf => false
  | JSNum.inf, _ => false
  | JSNum.negInf, JSNum.negInf => false
  | JSNum.negInf, _ => true

/-- Calculation method selected by the tabs: `'cogs'` (beginning and ending
inventory averaged) or `'average'` (a directly supplied average). -/
inductive CalculationMethod where
  | cogs
  | average
deriving DecidableEq, Repr

/-- The four numeric input fields held in the component's `values` state. -/
structure CalculatorValues where
  costOfGoodsSold : ℚ
  beginningInventory : ℚ
  endingInventory : ℚ
  averageInventory : ℚ
deriving DecidableEq, Repr

/-- The `inventoryValue` computed inside `calculateResults`:
`(beginningInventory + endingInventory) / 2` in `'cogs'` mode, and
`averageInventory` as supplied in `'average'` mode. -/
def effectiveInventory : CalculationMethod → CalculatorValues → ℚ
  | CalculationMethod.cogs, v => (v.beginningInventory + v.endingInventory) / 2
  | CalculationMethod.average, v => v.averageInventory

/-- The derived outputs set by `calculateResults`: the turnover ratio, the
days-to-sell (DSI), and the two chart datasets. -/
structure CalculatorResult where
  turnoverRatio : JSNum
  daysToSell : JSNum
  benchmarkData : List (String × JSNum)
  comparisonData : List (String × JSNum)
deriving DecidableEq, Repr

/-- The fixed industry benchmark dataset set by `calculateResults`. -/
def benchmarkEntries : List (String × JSNum) :=
  [ ("Apparel", JSNum.num (45 / 10)),
    ("Electronics", JSNum.num (52 / 10)),
    ("Grocery", JSNum.num (128 / 10)),
    ("Furniture", JSNum.num (23 / 10)),
    ("General Retail", JSNum.num (38 / 10)) ]

/-- Embedding of `calculateResults`: computes `inventoryValue` from the
active method, divides `costOfGoodsSold` by it, derives days-to-sell as
`365 / ratio`, and fills in the two chart datasets. -/
def calculateResults (method : CalculationMethod) (values : CalculatorValues) :
    CalculatorResult :=
  let inventoryValue : ℚ := effectiveInventory method values
  let ratio : JSNum := jsDiv values.costOfGoodsSold inventoryValue
  { turnoverRatio := ratio
    daysToSell := jsNumDiv 365 ratio
    benchmarkData := benchmarkEntries
    comparisonData :=
      [ ("Your Business", ratio), ("Industry Avg.", JSNum.num (38 / 10)) ] }

/-- The categorical description rendered for the turnover ratio
(source lines 342-346): `ratio < 2` gives the low-turnover text, otherwise
`ratio > 6` gives the high-turnover text, otherwise the average text. -/
def ratioDescription (r : JSNum) : String :=
  if jsLt r (JSNum.num 2) then
    "Low turnover - consider reducing inventory levels"
  else if jsLt (JSNum.num 6) r then
    "High turnover - efficient inventory management"
  else
    "Average turnover - within normal retail range"

/-- The categorical description rendered for days-to-sell
(source lines 357-361): `dsi > 180` gives the slow text, otherwise
`dsi < 60` gives the fast text, otherwise the average-pace text. -/
def dsiDescription (d : JSNum) : String :=
  if jsLt (JSNum.num 180) d then
    "Your inventory takes a long time to sell"
  else if jsLt d (JSNum.num 60) then
    "Your inventory sells very quickly"
  else
    "Your inventory sells at an average pace"

/-- Result of the host builtin `parseFloat` on the text of an input event:
either a finite number or `NaN` (for invalid or empty text).  The builtin
itself is not repository code; the component consumes its result. -/
inductive ParseResult where
  | nan
  | val (q : ℚ)
deriving DecidableEq, Repr

/-- The coercion `parseFloat(value) || 0` in `handleInputChange`: a falsy
parse result (`NaN` or `0`) becomes `0`, any other number passes through. -/
def coerceNumeric : ParseResult → ℚ
  | ParseResult.nan => 0
  | ParseResult.val q => if q = 0 then 0 else q

/-- The four field names an input event can carry. -/
inductive InputField where
  | costOfGoodsSold
  | beginningInventory
  | endingInventory
  | averageInventory
deriving DecidableEq, Repr

/-- Reads one named field of the `values` state. -/
def getField (v : CalculatorValues) : InputField → ℚ
  | InputField.costOfGoodsSold => v.costOfGoodsSold
  | InputField.beginningInventory => v.beginningInventory
  | InputField.endingInventory => v.endingInventory
  | InputField.averageInventory => v.averageInventory

/-- The spread update `{ ...values, [name]: x }`: replaces the one named
field, copying the rest. -/
def setField (v : CalculatorValues) : InputField → ℚ → CalculatorValues
  | InputField.costOfGoodsSold, x => { v with costOfGoodsSold := x }
  | InputField.beginningInventory, x => { v with beginningInventory := x }
  | InputField.endingInventory, x => { v with endingInventory := x }
  | InputField.averageInventory, x => { v with averageInventory := x }

/-- The component state the two event handlers touch: the active method and
the four stored numeric fields. -/
structure CalculatorState where
  method : CalculationMethod
  values : CalculatorValues
deriving DecidableEq, Repr

/-- Embedding of `handleInputChange`: stores `parseFloat(value) || 0` into
the field named by the event, leaving everything else as it was. -/
def handleInputChange (f : InputField) (r : ParseResult) (s : CalculatorState) :
    CalculatorState :=
  { s with values := setField s.values f (coerceNumeric r) }

/-- Embedding of `handleMethodChange`: replaces the active method only. -/
def handleMethodChange (m : CalculationMethod) (s : CalculatorState) :
    CalculatorState :=
  { s with method := m }

/-- The default `values` state of the component (source lines 37-42). -/
def defaultValues : CalculatorValues :=
  { costOfGoodsSold := 1000000
    beginningInventory := 250000
    endingInventory := 150000
    averageInventory := 200000 }

/-- C1: for every mode and every input set with positive effective average
inventory, `calculateResults` returns a turnover ratio equal to
`costOfGoodsSold / effectiveAverageInventory` (a finite number) and a DSI
equal to `365 / turnoverRatio`, where the effective average inventory is
`(beginningInventory + endingInventory) / 2` in COGS mode and the supplied
`averageInventory` in direct-average mode. -/
theorem c1_ratio_and_dsi_formula (m : CalculationMethod) (v : CalculatorValues)
    (h : 0 < effectiveInventory m v) :
    (calculateResults m v).turnoverRatio
        = JSNum.num (v.costOfGoodsSold / effectiveInventory m v)
      ∧ (calculateResults m v).daysToSell
        = jsNumDiv 365 (calculateResults m v).turnoverRatio := by
  have hne : effectiveInventory m v ≠ 0 := ne_of_gt h
  exact ⟨by simp [calculateResults, jsDiv, hne], rfl⟩

/-- Witness for C1 at the component's default inputs in COGS mode, where the
effective average inventory is 200000. -/
theorem c1_ratio_and_dsi_formula_witness :
    (calculateResults CalculationMethod.cogs defaultValues).turnoverRatio
        = JSNum.num (defaultValues.costOfGoodsSold
            / effectiveInventory CalculationMethod.cogs defaultValues)
      ∧ (calculateResults CalculationMethod.cogs defaultValues).daysToSell
        = jsNumDiv 365
            (calculateResults CalculationMethod.cogs defaultValues).turnoverRatio :=
  c1_ratio_and_dsi_formula CalculationMethod.cogs defaultValues
    (by norm_num [effectiveInventory, defaultValues])

/-- C2 (divergence): at COGS = 500000, beginning = 0, ending = 0 in COGS
mode the effective average inventory is 0, and the unguarded division in
`calculateResults` surfaces `Infinity` as the turnover ratio instead of a
defined undefined-sentinel. -/
theorem c2_zero_denominator_surfaces_infinity :
    (calculateResults CalculationMethod.cogs
        { costOfGoodsSold := 500000, beginningInventory := 0,
          endingInventory := 0, averageInventory := 0 }).turnoverRatio
      = JSNum.inf := by
  norm_num [calculateResults, effectiveInventory, jsDiv]

/-- C3: with beginning inventory, ending inventory and average inventory all
equal to the same value X, COGS mode and direct-average mode produce
identical results for every cost of goods sold. -/
theorem c3_mode_equivalence (c X : ℚ) :
    calculateResults CalculationMethod.cogs
        { costOfGoodsSold := c, beginningInventory := X,
          endingInventory := X, averageInventory := X }
      = calculateResults CalculationMethod.average
        { costOfGoodsSold := c, beginningInventory := X,
          endingInventory := X, averageInventory := X } := by
  have h : (X + X) / 2 = X := by ring
  simp [calculateResults, effectiveInventory, h]

/-- C4: for every finite turnover ratio q the rendered category is the low
text exactly when q < 2, the high text exactly when q > 6 and the average
text otherwise (so a ratio of exactly 2 is not low and exactly 6 is not
high, both inequalities strict), and for every finite DSI d the category is
the slow text exactly when d > 180, the fast text exactly when d < 60 and
the average-pace text otherwise. -/
theorem c4_category_thresholds (q d : ℚ) :
    (ratioDescription (JSNum.num q)
        = "Low turnover - consider reducing inventory levels" ↔ q < 2)
  ∧ (ratioDescription (JSNum.num q)
        = "High turnover - efficient inventory management" ↔ 6 < q)
  ∧ (ratioDescription (JSNum.num q)
        = "Average turnover - within normal retail range" ↔ 2 ≤ q ∧ q ≤ 6)
  ∧ (dsiDescription (JSNum.num d)
        = "Your inventory takes a long time to sell" ↔ 180 < d)
  ∧ (dsiDescription (JSNum.num d)
        = "Your inventory sells very quickly" ↔ d < 60)
  ∧ (dsiDescription (JSNum.num d)
        = "Your inventory sells at an average pace" ↔ 60 ≤ d ∧ d ≤ 180) := by
  unfold ratioDescription dsiDescription jsLt
  simp only [decide_eq_true_eq]
  refine ⟨?_, ?_, ?_, ?_, ?_, ?_⟩ <;>
    split_ifs with h1 h2 <;>
    simp_all <;>
    linarith

/-- C5: at the component's default inputs (COGS = 1000000 with beginning =
250000 and ending = 150000, or a direct average of 200000) the effective
average inventory is 200000, the turnover ratio is 5, the DSI is 73, and
the two modes yield exactly the same result. -/
theorem c5_concrete_scenarios :
    effectiveInventory CalculationMethod.cogs defaultValues = 200000
  ∧ (calculateResults CalculationMethod.cogs defaultValues).turnoverRatio
      = JSNum.num 5
  ∧ (calculateResults CalculationMethod.cogs defaultValues).daysToSell
      = JSNum.num 73
  ∧ calculateResults CalculationMethod.cogs defaultValues
      = calculateResults CalculationMethod.average defaultValues := by
  refine ⟨by norm_num [effectiveInventory, defaultValues], ?_, ?_, ?_⟩ <;>
    norm_num [calculateResults, effectiveInventory, defaultValues, jsDiv,
      jsNumDiv]

/-- C6: an input event whose text does not parse as a number (parseFloat
returns NaN, as for invalid or empty text) stores 0 in the named field;
the handler always produces a state and never an error. -/
theorem c6_invalid_input_coerced_to_zero (f : InputField) (s : CalculatorState) :
    getField (handleInputChange f ParseResult.nan s).values f = 0 := by
  cases f <;> simp [handleInputChange, setField, getField, coerceNumeric]

/-- C7: for every mode and input set, the benchmark dataset is exactly the
five fixed entries (Apparel 4.5, Electronics 5.2, Grocery 12.8,
Furniture 2.3, General Retail 3.8) and the comparison dataset pairs the
computed ratio ("Your Business") with the fixed industry average 3.8. -/
theorem c7_static_chart_data (m : CalculationMethod) (v : CalculatorValues) :
    (calculateResults m v).benchmarkData
        = [ ("Apparel", JSNum.num (45 / 10)),
            ("Electronics", JSNum.num (52 / 10)),
            ("Grocery", JSNum.num (128 / 10)),
            ("Furniture", JSNum.num (23 / 10)),
            ("General Retail", JSNum.num (38 / 10)) ]
      ∧ (calculateResults m v).comparisonData
        = [ ("Your Business", (calculateResults m v).turnoverRatio),
            ("Industry Avg.", JSNum.num (38 / 10)) ] :=
  ⟨rfl, rfl⟩

/-- C8: the calculator result is a pure function of the pair (method,
values): two invocations with equal method and equal input fields yield
equal results, with no other state influencing the outcome. -/
theorem c8_result_is_pure_function (m₁ m₂ : CalculationMethod)
    (v₁ v₂ : CalculatorValues) (hm : m₁ = m₂) (hv : v₁ = v₂) :
    calculateResults m₁ v₁ = calculateResults m₂ v₂ := by
  subst hm; subst hv; rfl

/-- Witness for C8 at the default inputs in COGS mode. -/
theorem c8_result_is_pure_function_witness :
    calculateResults CalculationMethod.cogs defaultValues
      = calculateResults CalculationMethod.cogs defaultValues :=
  c8_result_is_pure_function CalculationMethod.cogs CalculationMethod.cogs
    defaultValues defaultValues rfl rfl

/-- C9: input sanitization does not enforce non-negativity: the text "-5"
parses to -5, is stored unchanged into the average-inventory field, and the
subsequent computation yields a negative turnover ratio and negative DSI. -/
theorem c9_negative_input_flows_through :
    (handleInputChange InputField.averageInventory (ParseResult.val (-5))
        { method := CalculationMethod.average,
          values := defaultValues }).values.averageInventory = -5
  ∧ (calculateResults CalculationMethod.average
        (handleInputChange InputField.averageInventory (ParseResult.val (-5))
          { method := CalculationMethod.average,
            values := defaultValues }).values).turnoverRatio
      = JSNum.num (-200000)
  ∧ jsLt (calculateResults CalculationMethod.average
        (handleInputChange InputField.averageInventory (ParseResult.val (-5))
          { method := CalculationMethod.average,
            values := defaultValues }).values).daysToSell
      (JSNum.num 0) = true := by
  refine ⟨?_, ?_, ?_⟩ <;>
    norm_num [handleInputChange, setField, coerceNumeric, defaultValues,
      calculateResults, effectiveInventory, jsDiv, jsNumDiv, jsLt]

/-- C10: an input event rewrites exactly its named field (to the coerced
value) and preserves every other field and the active method, and a
method-switch event rewrites only the active method, preserving all four
stored fields. -/
theorem c10_handlers_frame_conditions (f g : InputField) (r : ParseResult)
    (m : CalculationMethod) (s : CalculatorState) (hfg : g ≠ f) :
    (handleInputChange f r s).method = s.method
  ∧ getField (handleInputChange f r s).values f = coerceNumeric r
  ∧ getField (handleInputChange f r s).values g = getField s.values g
  ∧ (handleMethodChange m s).values = s.values
  ∧ (handleMethodChange m s).method = m := by
  refine ⟨rfl, ?_, ?_, rfl, rfl⟩
  · cases f <;> rfl
  · cases f <;> cases g <;>
      first
        | exact absurd rfl hfg
        | rfl

/-- Witness for C10: editing the cost-of-goods-sold field leaves the
beginning-inventory field and the method untouched, and a method switch
leaves the values untouched. -/
theorem c10_handlers_frame_conditions_witness :
    (handleInputChange InputField.costOfGoodsSold (ParseResult.val 7)
        { method := CalculationMethod.cogs, values := defaultValues }).method
      = CalculationMethod.cogs
  ∧ getField (handleInputChange InputField.costOfGoodsSold (ParseResult.val 7)
        { method := CalculationMethod.cogs,
          values := defaultValues }).values InputField.costOfGoodsSold
      = coerceNumeric (ParseResult.val 7)
  ∧ getField (handleInputChange InputField.costOfGoodsSold (ParseResult.val 7)
        { method := CalculationMethod.cogs,
          values := defaultValues }).values InputField.beginningInventory
      = getField defaultValues InputField.beginningInventory
  ∧ (handleMethodChange CalculationMethod.average
        { method := CalculationMethod.cogs, values := defaultValues }).values
      = defaultValues
  ∧ (handleMethodChange CalculationMethod.average
        { method := CalculationMethod.cogs, values := defaultValues }).method
      = CalculationMethod.average :=
  c10_handlers_frame_conditions InputField.costOfGoodsSold
    InputField.beginningInventory (ParseResult.val 7) CalculationMethod.average
    { method := CalculationMethod.cogs, values := defaultValues } (by decide)
